import Mathlib

/-!
Shallow embedding of the rehab-coaching scoring pipeline.

Python floats are modelled as exact rationals (ℚ); wall-clock timestamps are
passed explicitly as ℚ arguments; fallible operations (file loading, feedback
rule conditions) return Except.  Each definition is translated from the named
source function.
-/

/-! Definitions: scorer.py -/

/-- From scorer.py `_clamp` (defaults lo=0.0, hi=100.0; every call site in the
source uses the defaults, so they are inlined here). -/
def pyClamp (value : ℚ) : ℚ :=
  max 0 (min 100 value)

/-- From scorer.py `compute_rom_score`. -/
def compute_rom_score (user_rom target_rom : ℚ) : ℚ :=
  if target_rom ≤ 0 then 100
  else pyClamp (user_rom / target_rom * 100)

/-- From scorer.py `compute_tempo_score`: asymmetric penalty around the ideal
rep duration. -/
def compute_tempo_score (rep_time ideal_rep_time penalty_factor : ℚ) : ℚ :=
  let diff := rep_time - ideal_rep_time
  if diff < 0 then pyClamp (100 - |diff| * penalty_factor * 2)
  else pyClamp (100 - |diff| * penalty_factor * (1 / 2))

/-! Python's built-in `round` (banker's rounding, round-half-to-even),
used by progression.py (`round(x, 2)`) and session.py (`round(x, 1)`). -/

/-- Round a rational to the nearest integer, ties to even (Python `round`). -/
def pyRoundInt (q : ℚ) : ℤ :=
  let n := ⌊q⌋
  let r := q - (n : ℚ)
  if r < 1 / 2 then n
  else if r > 1 / 2 then n + 1
  else if n % 2 = 0 then n else n + 1

/-- Python `round(q, nd)` for a nonnegative digit count. -/
def pyRound (q : ℚ) (nd : ℕ) : ℚ :=
  (pyRoundInt (q * 10 ^ nd) : ℚ) / 10 ^ nd

/-! Definitions: progression.py -/

/-- State of progression.py `ProgressionState.__init__`. -/
structure ProgressionState where
  session_scores : List ℚ
  target_reps : ℤ
  target_rom_multiplier : ℚ
  sway_tolerance_multiplier : ℚ
deriving DecidableEq, Repr

/-- The defaults set in `ProgressionState.__init__`. -/
def ProgressionState.init : ProgressionState :=
  { session_scores := [], target_reps := 10
    target_rom_multiplier := 1, sway_tolerance_multiplier := 1 }

/-- From `ProgressionState.record_session`. -/
def ProgressionState.record_session (s : ProgressionState) (avg_score : ℚ) : ProgressionState :=
  { s with session_scores := s.session_scores ++ [avg_score] }

/-- From `ProgressionState.consecutive_good_sessions`: scan the history from
the end, counting scores > 85, stopping at the first that is not. -/
def ProgressionState.consecutive_good_sessions (s : ProgressionState) : ℕ :=
  (s.session_scores.reverse.takeWhile (fun score => decide (score > 85))).length

/-- The dict returned by `ProgressionState.compute_progression`.  The
`new_target_reps` / multiplier keys are present only in the upgrade and
regress branches, hence Option.  The `reason` key is a formatted message
determined by the branch and the latest score; it is not modelled. -/
structure ProgressionResult where
  action : String
  new_target_reps : Option ℤ
  rom_multiplier : Option ℚ
  sway_multiplier : Option ℚ
deriving DecidableEq, Repr

/-- From `ProgressionState.compute_progression`.  The Python method mutates
`self` in the upgrade and regress branches; here it returns the result dict
together with the post-call state. -/
def ProgressionState.compute_progression (s : ProgressionState) : ProgressionResult × ProgressionState :=
  match s.session_scores.getLast? with
  | none =>
      ({ action := "none", new_target_reps := none,
         rom_multiplier := none, sway_multiplier := none }, s)
  | some latest =>
      if 3 ≤ s.consecutive_good_sessions then
        let tr := min (s.target_reps + 2) 30
        let rm := min (s.target_rom_multiplier + 5 / 100) (3 / 2)
        let sm := max (s.sway_tolerance_multiplier - 1 / 10) (1 / 2)
        ({ action := "upgrade", new_target_reps := some tr,
           rom_multiplier := some (pyRound rm 2), sway_multiplier := some (pyRound sm 2) },
         { s with target_reps := tr, target_rom_multiplier := rm,
                  sway_tolerance_multiplier := sm })
      else if latest < 60 then
        let tr := max (s.target_reps - 2) 5
        let rm := max (s.target_rom_multiplier - 5 / 100) (7 / 10)
        let sm := min (s.sway_tolerance_multiplier + 1 / 10) 2
        ({ action := "regress", new_target_reps := some tr,
           rom_multiplier := some (pyRound rm 2), sway_multiplier := some (pyRound sm 2) },
         { s with target_reps := tr, target_rom_multiplier := rm,
                  sway_tolerance_multiplier := sm })
      else
        ({ action := "maintain", new_target_reps := none,
           rom_multiplier := none, sway_multiplier := none }, s)

/-- What `ProgressionState.load` finds at `filepath`: the file may be absent
(`os.path.exists` is false), its content may fail JSON parsing (`json.load`
raises JSONDecodeError), it may parse to a non-object JSON value (then
`data.get` raises AttributeError), or it may be a JSON object in which each
expected key is present or absent (`dict.get` with a default). -/
inductive ProgressionFileContent where
  | missing
  | invalidJson
  | jsonNonObject
  | jsonObject (session_scores : Option (List ℚ)) (target_reps : Option ℤ)
      (target_rom_multiplier : Option ℚ) (sway_tolerance_multiplier : Option ℚ)
deriving DecidableEq, Repr

/-- Exceptions `ProgressionState.load` can let escape. -/
inductive LoadError where
  | jsonDecodeError
  | attributeError
deriving DecidableEq, Repr

/-- From `ProgressionState.load`: early-returns (state unchanged) when the
file is missing; otherwise `json.load` then `data.get` with the defaults.
There is no try/except in the source, so parse failures propagate. -/
def ProgressionState.load (s : ProgressionState) (file : ProgressionFileContent) :
    Except LoadError ProgressionState :=
  match file with
  | .missing => .ok s
  | .invalidJson => .error .jsonDecodeError
  | .jsonNonObject => .error .attributeError
  | .jsonObject ss tr rm sm =>
      .ok { session_scores := ss.getD [], target_reps := tr.getD 10,
            target_rom_multiplier := rm.getD 1, sway_tolerance_multiplier := sm.getD 1 }

/-! Definitions: feature_engine.py -/

/-- An extended rational standing for the Python floats held in
`ROMTracker.current_max` / `current_min`, which are initialised to
`-float('inf')` / `float('inf')` and otherwise hold finite angles. -/
inductive XQ where
  | negInf
  | posInf
  | fin (q : ℚ)
deriving DecidableEq, Repr

/-- Python `max(current_max, angle)` for a finite `angle`. -/
def XQ.maxWith (m : XQ) (angle : ℚ) : XQ :=
  match m with
  | .negInf => .fin angle
  | .posInf => .posInf
  | .fin a => .fin (max a angle)

/-- Python `min(current_min, angle)` for a finite `angle`. -/
def XQ.minWith (m : XQ) (angle : ℚ) : XQ :=
  match m with
  | .negInf => .negInf
  | .posInf => .fin angle
  | .fin a => .fin (min a angle)

/-- State of feature_engine.py `ROMTracker`. -/
structure ROMTracker where
  current_max : XQ
  current_min : XQ
  rep_roms : List ℚ
deriving DecidableEq, Repr

/-- `ROMTracker.__init__` (also the state restored by `reset`). -/
def ROMTracker.init : ROMTracker :=
  { current_max := .negInf, current_min := .posInf, rep_roms := [] }

/-- From `ROMTracker.update`. -/
def ROMTracker.update (t : ROMTracker) (angle : ℚ) : ROMTracker :=
  { t with current_max := t.current_max.maxWith angle,
           current_min := t.current_min.minWith angle }

/-- From `ROMTracker.complete_rep`: `rom = current_max - current_min`, floored
at 0 when negative, appended to `rep_roms`; extremes reset to ±∞.  From the
initial state both extremes are updated in lockstep, so the only reachable
non-finite case is `(-∞, +∞)` (no update since the last reset), where Python
computes `-inf - inf = -inf < 0` and floors the ROM to `0.0` — the catch-all
arm below.  (States with exactly one infinite extreme are unreachable.) -/
def ROMTracker.complete_rep (t : ROMTracker) : ℚ × ROMTracker :=
  let rom : ℚ :=
    match t.current_max, t.current_min with
    | .fin a, .fin b => if a - b < 0 then 0 else a - b
    | _, _ => 0
  (rom, { current_max := .negInf, current_min := .posInf, rep_roms := t.rep_roms ++ [rom] })

/-- State of feature_engine.py `TempoTracker`; `rep_start_time` is
`None` or a wall-clock timestamp. -/
structure TempoTracker where
  rep_start_time : Option ℚ
  rep_times : List ℚ
deriving DecidableEq, Repr

/-- `TempoTracker.__init__` (also the state restored by `reset`). -/
def TempoTracker.init : TempoTracker :=
  { rep_start_time := none, rep_times := [] }

/-- From `TempoTracker.start_rep`: unconditionally stores `time.time()`
(passed here explicitly as `now`). -/
def TempoTracker.start_rep (t : TempoTracker) (now : ℚ) : TempoTracker :=
  { t with rep_start_time := some now }

/-- From `TempoTracker.complete_rep`: returns 0.0 if no rep is pending,
otherwise records the elapsed time and re-arms the start timestamp. -/
def TempoTracker.complete_rep (t : TempoTracker) (now : ℚ) : ℚ × TempoTracker :=
  match t.rep_start_time with
  | none => (0, t)
  | some st =>
      (now - st, { rep_start_time := some now, rep_times := t.rep_times ++ [now - st] })

/-- From exercises/base.py `ExerciseBase._on_rep_start` (named without the
leading underscore): calls `start_rep` only when no start timestamp is
pending.  Modelled directly on the tempo tracker the method manipulates. -/
def ExerciseBase.on_rep_start (t : TempoTracker) (now : ℚ) : TempoTracker :=
  match t.rep_start_time with
  | none => t.start_rep now
  | some _ => t

/-! Definitions: session.py -/

/-- The scores dict produced by `RepScorer.score_rep` and consumed by
`Session.add_rep` (all five keys are always present in the source's dicts;
`.get(key, 0)` lookups therefore always find the key). -/
structure RepScores where
  rom_score : ℚ
  stability_score : ℚ
  tempo_score : ℚ
  asymmetry_score : ℚ
  final_score : ℚ
deriving DecidableEq, Repr

/-- From session.py dataclass `RepRecord`. -/
structure RepRecord where
  rep_number : ℕ
  rom_score : ℚ
  stability_score : ℚ
  tempo_score : ℚ
  asymmetry_score : ℚ
  final_score : ℚ
  rom_value : ℚ
  rep_time : ℚ
  feedback : List String
deriving DecidableEq, Repr

/-- From session.py dataclass `Session`. -/
structure Session where
  exercise_name : String
  start_time : ℚ
  end_time : Option ℚ
  reps : List RepRecord
  feedback_events : List String
deriving DecidableEq, Repr

/-- A fresh `Session(exercise_name=name)` whose start-time default factory
returned `start`. -/
def Session.new (name : String) (start : ℚ) : Session :=
  { exercise_name := name, start_time := start, end_time := none,
    reps := [], feedback_events := [] }

/-- From `Session.add_rep` (the Python `feedback=None` default is the empty
list here; `if feedback:` is false exactly on the empty list). -/
def Session.add_rep (s : Session) (scores : RepScores) (rom_value rep_time : ℚ)
    (feedback : List String) : Session :=
  let rep : RepRecord :=
    { rep_number := s.reps.length + 1,
      rom_score := scores.rom_score, stability_score := scores.stability_score,
      tempo_score := scores.tempo_score, asymmetry_score := scores.asymmetry_score,
      final_score := scores.final_score,
      rom_value := rom_value, rep_time := rep_time, feedback := feedback }
  { s with reps := s.reps ++ [rep],
           feedback_events :=
             if feedback = [] then s.feedback_events else s.feedback_events ++ feedback }

/-- From the `Session.total_reps` property. -/
def Session.total_reps (s : Session) : ℕ :=
  s.reps.length

/-- From the `Session.avg_final_score` property. -/
def Session.avg_final_score (s : Session) : ℚ :=
  if s.reps = [] then 0
  else (s.reps.map RepRecord.final_score).sum / (s.reps.length : ℚ)

/-- From the `Session.avg_rom_score` property. -/
def Session.avg_rom_score (s : Session) : ℚ :=
  if s.reps = [] then 0
  else (s.reps.map RepRecord.rom_score).sum / (s.reps.length : ℚ)

/-- From the `Session.avg_stability_score` property. -/
def Session.avg_stability_score (s : Session) : ℚ :=
  if s.reps = [] then 0
  else (s.reps.map RepRecord.stability_score).sum / (s.reps.length : ℚ)

/-- From the `Session.avg_tempo_score` property. -/
def Session.avg_tempo_score (s : Session) : ℚ :=
  if s.reps = [] then 0
  else (s.reps.map RepRecord.tempo_score).sum / (s.reps.length : ℚ)

/-- From the `Session.avg_asymmetry_score` property. -/
def Session.avg_asymmetry_score (s : Session) : ℚ :=
  if s.reps = [] then 0
  else (s.reps.map RepRecord.asymmetry_score).sum / (s.reps.length : ℚ)

/-- The dict returned by `Session.summary`, minus `feedback_events` (its
order comes from Python set iteration, which is unspecified; no claim
depends on it). -/
structure SessionSummary where
  exercise : String
  total_reps : ℕ
  avg_final_score : ℚ
  avg_rom_score : ℚ
  avg_stability_score : ℚ
  avg_tempo_score : ℚ
  avg_asymmetry_score : ℚ
  duration_seconds : ℚ
deriving DecidableEq, Repr

/-- From `Session.summary` (`now` stands for the `time.time()` read when the
session has not been ended). -/
def Session.summary (s : Session) (now : ℚ) : SessionSummary :=
  { exercise := s.exercise_name,
    total_reps := s.total_reps,
    avg_final_score := pyRound s.avg_final_score 1,
    avg_rom_score := pyRound s.avg_rom_score 1,
    avg_stability_score := pyRound s.avg_stability_score 1,
    avg_tempo_score := pyRound s.avg_tempo_score 1,
    avg_asymmetry_score := pyRound s.avg_asymmetry_score 1,
    duration_seconds := pyRound ((s.end_time.getD now) - s.start_time) 1 }

/-- The concrete session of the spec's Session test vector: three reps whose
final scores are 70, 80, 90 (other inputs zero). -/
def demoSession : Session :=
  (((Session.new "demo" 0).add_rep
      { rom_score := 0, stability_score := 0, tempo_score := 0,
        asymmetry_score := 0, final_score := 70 } 0 0 []).add_rep
      { rom_score := 0, stability_score := 0, tempo_score := 0,
        asymmetry_score := 0, final_score := 80 } 0 0 []).add_rep
      { rom_score := 0, stability_score := 0, tempo_score := 0,
        asymmetry_score := 0, final_score := 90 } 0 0 []

/-! Definitions: feedback.py -/

/-- From feedback.py `FeedbackRule`.  `condition_fn` is an arbitrary callable
over `(landmarks, context)` (types abstracted as `α`, `β`); a condition that
raises an exception is modelled as `Except.error` carrying the message. -/
structure FeedbackRule (α β : Type) where
  name : String
  condition_fn : α → β → Except String Bool
  message : String
  priority : ℤ

/-- From feedback.py `FeedbackEngine` (its single attribute `rules`). -/
structure FeedbackEngine (α β : Type) where
  rules : List (FeedbackRule α β)

/-- `FeedbackEngine.__init__`: empty rule list. -/
def FeedbackEngine.empty (α β : Type) : FeedbackEngine α β :=
  { rules := [] }

/-- From `FeedbackEngine.add_rule`: append, then `list.sort(key=priority)`.
Python's sort is stable, and any two stable sorts under the same key agree
pointwise, so the stable `List.insertionSort` models it exactly. -/
def FeedbackEngine.add_rule (e : FeedbackEngine α β) (rule : FeedbackRule α β) :
    FeedbackEngine α β :=
  { rules := List.insertionSort (fun a b => a.priority ≤ b.priority) (e.rules ++ [rule]) }

/-- An engine populated by calling `add_rule` once per rule, in order (the
only way rules enter an engine in the source, cf. `create_default_feedback_engine`). -/
def FeedbackEngine.build (rules : List (FeedbackRule α β)) : FeedbackEngine α β :=
  rules.foldl FeedbackEngine.add_rule (FeedbackEngine.empty α β)

/-- The per-rule body of the loop in `FeedbackEngine.evaluate`: inside
`try`, append the message if the condition returns truthy; `except: pass`
leaves the accumulator unchanged. -/
def FeedbackEngine.evalStep (landmarks : α) (context : β) (triggered : List String)
    (rule : FeedbackRule α β) : List String :=
  match rule.condition_fn landmarks context with
  | Except.ok true => triggered ++ [rule.message]
  | _ => triggered

/-- From `FeedbackEngine.evaluate`: fold the loop body over the rules,
starting from the empty `triggered` list. -/
def FeedbackEngine.evaluate (e : FeedbackEngine α β) (landmarks : α) (context : β) :
    List String :=
  e.rules.foldl (FeedbackEngine.evalStep landmarks context) []

/-- Whether a rule's condition ran without raising and returned true — the
exact guard under which `evaluate` appends its message. -/
def ruleTriggered (landmarks : α) (context : β) (rule : FeedbackRule α β) : Bool :=
  match rule.condition_fn landmarks context with
  | Except.ok true => true
  | _ => false

/-! Definitions: landmark_processor.py -/

/-- A raw input landmark (mediapipe): x, y, z and a visibility. -/
structure Landmark where
  x : ℚ
  y : ℚ
  z : ℚ
  visibility : ℚ
deriving DecidableEq, Repr

/-- From landmark_processor.py dataclass `ProcessedLandmark`. -/
structure ProcessedLandmark where
  x : ℚ
  y : ℚ
  z : ℚ
  visibility : ℚ
  valid : Bool
deriving DecidableEq, Repr

/-- landmark_processor.py `VISIBILITY_THRESHOLD`. -/
def VISIBILITY_THRESHOLD : ℚ := 1 / 2

/-- From `filter_visibility`: flag each landmark valid iff its visibility
reaches the threshold, keeping coordinates unchanged.  (The source's
`getattr(lm, 'visibility', 1.0)` default never fires for mediapipe input;
the model's landmarks always carry a visibility.) -/
def filter_visibility (landmarks : List Landmark) (threshold : ℚ) :
    List ProcessedLandmark :=
  landmarks.map fun lm =>
    { x := lm.x, y := lm.y, z := lm.z, visibility := lm.visibility,
      valid := decide (lm.visibility ≥ threshold) }

/-- The hip-center reference point (a numpy 3-vector in the source). -/
structure Vec3 where
  x : ℚ
  y : ℚ
  z : ℚ
deriving DecidableEq, Repr

/-- From `normalize_landmarks`: floor the torso length at 0.01, then
translate valid landmarks to hip-center origin and scale by torso length;
invalid landmarks are re-emitted with their raw coordinates. -/
def normalize_landmarks (processed_landmarks : List ProcessedLandmark)
    (hip_center : Vec3) (torso_length : ℚ) : List ProcessedLandmark :=
  let t := if torso_length < 1 / 100 then 1 / 100 else torso_length
  processed_landmarks.map fun lm =>
    if lm.valid then
      { x := (lm.x - hip_center.x) / t, y := (lm.y - hip_center.y) / t,
        z := (lm.z - hip_center.z) / t, visibility := lm.visibility, valid := true }
    else
      { x := lm.x, y := lm.y, z := lm.z, visibility := lm.visibility, valid := false }

/-- A concrete rule whose condition raises (for exercising the engine's
error isolation). -/
def ruleBad : FeedbackRule Unit Unit :=
  { name := "bad", condition_fn := fun _ _ => Except.error "boom",
    message := "bad message", priority := 1 }

/-- A concrete rule whose condition returns True. -/
def ruleOk : FeedbackRule Unit Unit :=
  { name := "ok", condition_fn := fun _ _ => Except.ok true,
    message := "ok message", priority := 2 }

/-! Shared helper lemmas -/

/-- The clamp never goes below its lower bound. -/
theorem pyClamp_nonneg (v : ℚ) : 0 ≤ pyClamp v :=
  le_max_left 0 _

/-- The clamp never exceeds its upper bound. -/
theorem pyClamp_le_hundred (v : ℚ) : pyClamp v ≤ 100 :=
  max_le (by norm_num) (min_le_left _ _)

/-! Claims C9 and C4: the pure scoring formulas -/

/-- Claim C9: compute_rom_score equals clamp((user_rom / target_rom) * 100, 0, 100)
whenever target_rom > 0, returns 100.0 whenever target_rom ≤ 0, and in
particular rom_score(45, 90) = 50.0 and rom_score(120, 90) = 100.0. -/
theorem claimC9 (user_rom target_rom : ℚ) :
    (0 < target_rom →
      compute_rom_score user_rom target_rom = pyClamp (user_rom / target_rom * 100))
    ∧ (target_rom ≤ 0 → compute_rom_score user_rom target_rom = 100)
    ∧ compute_rom_score 45 90 = 50
    ∧ compute_rom_score 120 90 = 100 := by
  refine ⟨fun h => ?_, fun h => ?_, ?_, ?_⟩
  · rw [compute_rom_score, if_neg (not_le.mpr h)]
  · rw [compute_rom_score, if_pos h]
  · norm_num [compute_rom_score, pyClamp, min_def, max_def]
  · norm_num [compute_rom_score, pyClamp, min_def, max_def]

/-- Witness for C9 at the concrete input user_rom = 45, target_rom = 90. -/
theorem claimC9_witness :
    compute_rom_score 45 90 = pyClamp (45 / 90 * 100) :=
  (claimC9 45 90).1 (by norm_num)

/-- Claim C4: compute_tempo_score penalizes 2× the factor per second below
the ideal duration and 0.5× above it, clamped to [0, 100]; in particular
tempo(4,4,20) = 100, tempo(1,4,20) = 0 and tempo(6,4,20) = 80. -/
theorem claimC4 (rep_time ideal pf : ℚ) :
    (rep_time < ideal →
      compute_tempo_score rep_time ideal pf = pyClamp (100 - (ideal - rep_time) * pf * 2))
    ∧ (ideal ≤ rep_time →
      compute_tempo_score rep_time ideal pf = pyClamp (100 - (rep_time - ideal) * pf * (1 / 2)))
    ∧ 0 ≤ compute_tempo_score rep_time ideal pf
    ∧ compute_tempo_score rep_time ideal pf ≤ 100
    ∧ compute_tempo_score 4 4 20 = 100
    ∧ compute_tempo_score 1 4 20 = 0
    ∧ compute_tempo_score 6 4 20 = 80 := by
  refine ⟨fun h => ?_, fun h => ?_, ?_, ?_, ?_, ?_, ?_⟩
  · have hd : rep_time - ideal < 0 := by linarith
    rw [compute_tempo_score]
    rw [if_pos hd, abs_of_neg hd]
    congr 1
    ring
  · have hd : ¬ rep_time - ideal < 0 := by linarith
    rw [compute_tempo_score]
    rw [if_neg hd, abs_of_nonneg (by linarith)]
  · rw [compute_tempo_score]
    split_ifs <;> exact pyClamp_nonneg _
  · rw [compute_tempo_score]
    split_ifs <;> exact pyClamp_le_hundred _
  · norm_num [compute_tempo_score, pyClamp, min_def, max_def]
  · norm_num [compute_tempo_score, pyClamp, min_def, max_def, abs_of_neg]
  · norm_num [compute_tempo_score, pyClamp, min_def, max_def, abs_of_nonneg]

/-- Witness for C4 at rep_time = 2, ideal = 4, factor = 20 (the too-fast side). -/
theorem claimC4_witness :
    compute_tempo_score 2 4 20 = pyClamp (100 - (4 - 2) * 20 * 2) :=
  (claimC4 2 4 20).1 (by norm_num)

/-! Claim C3: ProgressionState.load -/

/-- Counterexample to claim C3: on content that is not valid JSON,
`ProgressionState.load` raises (json.load's JSONDecodeError propagates — there
is no try/except in the source), instead of falling back to defaults. -/
theorem claimC3_counterexample :
    ProgressionState.init.load ProgressionFileContent.invalidJson
      = Except.error LoadError.jsonDecodeError := rfl

/-- Claim C3 as amended: load leaves the state unchanged when the file is
missing (so a fresh state keeps the documented defaults); a JSON object with
missing fields falls back per-field to the defaults (target_reps = 10,
multipliers = 1.0, empty history); but content that is not valid JSON raises
JSONDecodeError, and valid JSON that is not an object raises AttributeError. -/
theorem claimC3_amended (s : ProgressionState) (ss : Option (List ℚ)) (tr : Option ℤ)
    (rm sm : Option ℚ) :
    s.load .missing = .ok s
    ∧ s.load (.jsonObject ss tr rm sm) =
        .ok { session_scores := ss.getD [], target_reps := tr.getD 10,
              target_rom_multiplier := rm.getD 1, sway_tolerance_multiplier := sm.getD 1 }
    ∧ ProgressionState.init.load (.jsonObject none none none none) = .ok ProgressionState.init
    ∧ s.load .invalidJson = .error .jsonDecodeError
    ∧ s.load .jsonNonObject = .error .attributeError :=
  ⟨rfl, rfl, rfl, rfl, rfl⟩

/-! Claim C5: the progression decision order on the spec's test vectors -/

/-- Claim C5: recording [90, 88, 95] into a fresh state yields action
"upgrade"; recording the single score 40 into a fresh state yields action
"regress" with new_target_reps = 8. -/
theorem claimC5 :
    ((((ProgressionState.init.record_session 90).record_session 88).record_session
        95).compute_progression).1.action = "upgrade"
    ∧ ((ProgressionState.init.record_session 40).compute_progression).1.action = "regress"
    ∧ ((ProgressionState.init.record_session 40).compute_progression).1.new_target_reps
        = some 8 := by
  refine ⟨?_, ?_, ?_⟩ <;> decide

/-! Claim C6: ROMTracker rep lifecycle -/

/-- Claim C6: for a fresh ROMTracker, update(30); update(80); complete_rep()
returns 50.0, records it in the history, resets the extremes to ±∞, and a
second complete_rep with no intervening update returns 0.0. -/
theorem claimC6 :
    (((ROMTracker.init.update 30).update 80).complete_rep).1 = 50
    ∧ ((((ROMTracker.init.update 30).update 80).complete_rep).2).current_max = XQ.negInf
    ∧ ((((ROMTracker.init.update 30).update 80).complete_rep).2).current_min = XQ.posInf
    ∧ ((((ROMTracker.init.update 30).update 80).complete_rep).2).rep_roms = [50]
    ∧ (((((ROMTracker.init.update 30).update 80).complete_rep).2).complete_rep).1 = 0 := by
  refine ⟨?_, ?_, ?_, ?_, ?_⟩ <;>
    norm_num [ROMTracker.init, ROMTracker.update, ROMTracker.complete_rep,
      XQ.maxWith, XQ.minWith, max_def, min_def]

/-! Claim C10: normalize_landmarks and invalid landmarks -/

/-- Claim C10: normalize_landmarks preserves the list length, leaves every
invalid landmark at its index with raw x, y, z (and visibility) unchanged,
and applies the hip-center translation and torso scaling exactly to the
valid ones. -/
theorem claimC10 (pls : List ProcessedLandmark) (hip : Vec3) (torso : ℚ) (i : ℕ)
    (lm : ProcessedLandmark) :
    (normalize_landmarks pls hip torso).length = pls.length
    ∧ (pls[i]? = some lm → lm.valid = false →
        (normalize_landmarks pls hip torso)[i]? =
          some { x := lm.x, y := lm.y, z := lm.z, visibility := lm.visibility,
                 valid := false })
    ∧ (pls[i]? = some lm → lm.valid = true →
        (normalize_landmarks pls hip torso)[i]? =
          some { x := (lm.x - hip.x) / (if torso < 1 / 100 then 1 / 100 else torso),
                 y := (lm.y - hip.y) / (if torso < 1 / 100 then 1 / 100 else torso),
                 z := (lm.z - hip.z) / (if torso < 1 / 100 then 1 / 100 else torso),
                 visibility := lm.visibility, valid := true }) := by
  refine ⟨?_, fun h hv => ?_, fun h hv => ?_⟩
  · simp [normalize_landmarks]
  · simp [normalize_landmarks, List.getElem?_map, h, hv]
  · simp [normalize_landmarks, List.getElem?_map, h, hv]

/-- Witness for C10: a single invalid landmark passes through verbatim. -/
theorem claimC10_witness :
    (normalize_landmarks [{ x := 1, y := 2, z := 3, visibility := 1 / 4, valid := false }]
        { x := 9, y := 9, z := 9 } 1)[0]? =
      some { x := 1, y := 2, z := 3, visibility := 1 / 4, valid := false } :=
  (claimC10 [{ x := 1, y := 2, z := 3, visibility := 1 / 4, valid := false }]
    { x := 9, y := 9, z := 9 } 1 0
    { x := 1, y := 2, z := 3, visibility := 1 / 4, valid := false }).2.1 rfl rfl

/-! Claim C7: session running averages -/

/-- Claim C7: every running average is the arithmetic mean of its field over
the recorded reps and is 0.0 on an empty session; adding 3 reps with final
scores 70, 80, 90 yields avg_final_score = 80.0 and a summary with
total_reps = 3. -/
theorem claimC7 (s : Session) (now : ℚ) :
    (s.reps = [] →
      s.avg_final_score = 0 ∧ s.avg_rom_score = 0 ∧ s.avg_stability_score = 0
        ∧ s.avg_tempo_score = 0 ∧ s.avg_asymmetry_score = 0)
    ∧ (s.reps ≠ [] →
      s.avg_final_score = (s.reps.map RepRecord.final_score).sum / (s.reps.length : ℚ)
        ∧ s.avg_rom_score = (s.reps.map RepRecord.rom_score).sum / (s.reps.length : ℚ)
        ∧ s.avg_stability_score
            = (s.reps.map RepRecord.stability_score).sum / (s.reps.length : ℚ)
        ∧ s.avg_tempo_score = (s.reps.map RepRecord.tempo_score).sum / (s.reps.length : ℚ)
        ∧ s.avg_asymmetry_score
            = (s.reps.map RepRecord.asymmetry_score).sum / (s.reps.length : ℚ))
    ∧ demoSession.avg_final_score = 80
    ∧ (demoSession.summary now).total_reps = 3 := by
  refine ⟨fun h => ?_, fun h => ?_, ?_, ?_⟩
  · simp [Session.avg_final_score, Session.avg_rom_score, Session.avg_stability_score,
      Session.avg_tempo_score, Session.avg_asymmetry_score, h]
  · simp [Session.avg_final_score, Session.avg_rom_score, Session.avg_stability_score,
      Session.avg_tempo_score, Session.avg_asymmetry_score, h]
  · rw [show demoSession.avg_final_score
        = (demoSession.reps.map RepRecord.final_score).sum / (demoSession.reps.length : ℚ) by
      rw [Session.avg_final_score, if_neg (by exact List.cons_ne_nil _ _)]]
    norm_num [demoSession, Session.new, Session.add_rep]
  · norm_num [demoSession, Session.new, Session.add_rep, Session.summary,
      Session.total_reps]

/-- Witness for C7: a fresh (empty) session reports a 0.0 final-score average. -/
theorem claimC7_witness :
    (Session.new "w" 0).avg_final_score = 0 :=
  ((claimC7 (Session.new "w" 0) 0).1 rfl).1

/-! Claim C2: the rep-start guard -/

/-- Counterexample to claim C2: with a rep already pending (started at t = 5),
a second direct call to `TempoTracker.start_rep` at t = 7 is not ignored —
the source's `start_rep` body stores `time.time()` unconditionally, so the
pending timestamp changes from 5 to 7. -/
theorem claimC2_counterexample :
    (TempoTracker.init.start_rep 5).rep_start_time = some 5
    ∧ ((TempoTracker.init.start_rep 5).start_rep 7).rep_start_time = some 7
    ∧ ((TempoTracker.init.start_rep 5).start_rep 7).rep_start_time
        ≠ (TempoTracker.init.start_rep 5).rep_start_time := by
  refine ⟨rfl, rfl, ?_⟩
  decide

/-- Claim C2 as amended: the none-pending guard lives in the caller,
`ExerciseBase._on_rep_start`, not in `TempoTracker.start_rep` itself.
`_on_rep_start` invokes `start_rep` only when `rep_start_time` is None, so a
second `_on_rep_start` before rep completion leaves the tracker unchanged,
while a direct second `start_rep` call unconditionally overwrites the pending
timestamp with the current time. -/
theorem claimC2_amended (t : TempoTracker) (now x : ℚ) :
    (t.rep_start_time = some x → ExerciseBase.on_rep_start t now = t)
    ∧ (t.rep_start_time = none → ExerciseBase.on_rep_start t now = t.start_rep now)
    ∧ (t.start_rep now).rep_start_time = some now := by
  refine ⟨fun h => ?_, fun h => ?_, rfl⟩
  · rw [ExerciseBase.on_rep_start, h]
  · rw [ExerciseBase.on_rep_start, h]

/-- Witness for C2's amended theorem: a pending tracker (started at t = 5)
is left untouched by a second `_on_rep_start` at t = 7. -/
theorem claimC2_witness :
    ExerciseBase.on_rep_start (TempoTracker.init.start_rep 5) 7
      = TempoTracker.init.start_rep 5 :=
  (claimC2_amended (TempoTracker.init.start_rep 5) 7 5).1 rfl

/-! Claim C1: idempotence of compute_progression -/

/-- compute_progression never changes the recorded session-score history
(only record_session appends to it). -/
theorem compute_progression_scores (s : ProgressionState) :
    ((s.compute_progression).2).session_scores = s.session_scores := by
  rcases hs : s.session_scores.getLast? with _ | latest
  · simp only [ProgressionState.compute_progression, hs]
  · simp only [ProgressionState.compute_progression, hs]
    split_ifs <;> rfl

/-- The action chosen by compute_progression depends only on the
session-score history (never on the target parameters it adjusts). -/
theorem compute_progression_action_congr (s t : ProgressionState)
    (h : s.session_scores = t.session_scores) :
    ((s.compute_progression).1).action = ((t.compute_progression).1).action := by
  have hc : s.consecutive_good_sessions = t.consecutive_good_sessions := by
    rw [ProgressionState.consecutive_good_sessions,
      ProgressionState.consecutive_good_sessions, h]
  have hg : t.session_scores.getLast? = s.session_scores.getLast? := by rw [h]
  rcases hs : s.session_scores.getLast? with _ | latest
  · simp only [ProgressionState.compute_progression, hs, hg.trans hs]
  · simp only [ProgressionState.compute_progression, hs, hg.trans hs]
    rw [hc]
    split_ifs <;> rfl

/-- In the none and maintain branches compute_progression leaves the whole
state unchanged. -/
theorem compute_progression_state_eq (s : ProgressionState)
    (h : ((s.compute_progression).1).action = "maintain"
      ∨ ((s.compute_progression).1).action = "none") :
    (s.compute_progression).2 = s := by
  rcases hs : s.session_scores.getLast? with _ | latest
  · simp only [ProgressionState.compute_progression, hs]
  · rw [ProgressionState.compute_progression] at h ⊢
    simp only [hs] at h ⊢
    split_ifs at h ⊢ with h1 h2
    · rcases h with h | h <;> simp at h
    · rcases h with h | h <;> simp at h
    · rfl

/-- Counterexample to claim C1: in the regress branch the second call is not
idempotent.  After recording the single score 40 into a fresh state, the
first compute_progression reports regress with new_target_reps = 8, and an
immediate second call (no record_session in between) reports regress with
new_target_reps = 6 — the adjustment is applied again, so the reported
parameters differ. -/
theorem claimC1_counterexample :
    ((ProgressionState.init.record_session 40).compute_progression).1.action = "regress"
    ∧ ((ProgressionState.init.record_session 40).compute_progression).1.new_target_reps
        = some 8
    ∧ ((((ProgressionState.init.record_session 40).compute_progression).2
          ).compute_progression).1.action = "regress"
    ∧ ((((ProgressionState.init.record_session 40).compute_progression).2
          ).compute_progression).1.new_target_reps = some 6 := by
  refine ⟨?_, ?_, ?_, ?_⟩ <;> decide

/-- Claim C1 as amended: compute_progression is deterministic, and a second
call on the unchanged history always chooses the same action; in the none and
maintain branches the second call is fully idempotent (identical result dict
and state), while in the regress and upgrade branches the second call
re-applies the bounded parameter adjustments, so the reported parameters can
differ (e.g. target reps 8 then 6) until the clamps saturate. -/
theorem claimC1_amended (s : ProgressionState) :
    (((s.compute_progression).2).compute_progression).1.action
        = ((s.compute_progression).1).action
    ∧ (((s.compute_progression).1).action = "maintain"
          ∨ ((s.compute_progression).1).action = "none" →
        ((s.compute_progression).2).compute_progression = s.compute_progression) := by
  constructor
  · exact compute_progression_action_congr _ _ (compute_progression_scores s)
  · intro h
    rw [compute_progression_state_eq s h]

/-- Witness for C1's amended theorem at a fresh state: the first call reports
action "none" and the second call is identical. -/
theorem claimC1_witness :
    ((ProgressionState.init.compute_progression).2).compute_progression
      = ProgressionState.init.compute_progression :=
  (claimC1_amended ProgressionState.init).2 (Or.inr rfl)

/-! Claim C8: FeedbackEngine.evaluate isolates rule failures -/

/-- Unrolling the evaluate loop: starting from any accumulator, the fold
appends exactly the messages of the triggered rules, in rule order. -/
theorem foldl_evalStep_eq (landmarks : α) (context : β) (l : List (FeedbackRule α β))
    (acc : List String) :
    l.foldl (FeedbackEngine.evalStep landmarks context) acc
      = acc ++ (l.filter (ruleTriggered landmarks context)).map FeedbackRule.message := by
  induction l generalizing acc with
  | nil => simp
  | cons r rest ih =>
    rw [List.foldl_cons, List.filter_cons, ih]
    rcases h : r.condition_fn landmarks context with m | b
    · simp [FeedbackEngine.evalStep, ruleTriggered, h]
    · cases b
      · simp [FeedbackEngine.evalStep, ruleTriggered, h]
      · simp [FeedbackEngine.evalStep, ruleTriggered, h]

/-- evaluate returns exactly the messages of the rules whose condition ran
without raising and returned true, in the engine's rule order. -/
theorem evaluate_eq_filter (e : FeedbackEngine α β) (landmarks : α) (context : β) :
    e.evaluate landmarks context
      = (e.rules.filter (ruleTriggered landmarks context)).map FeedbackRule.message := by
  rw [FeedbackEngine.evaluate, foldl_evalStep_eq, List.nil_append]

/-- add_rule always re-sorts, so its output is sorted by ascending priority. -/
theorem add_rule_sorted (e : FeedbackEngine α β) (rule : FeedbackRule α β) :
    List.Sorted (fun a b : FeedbackRule α β => a.priority ≤ b.priority)
      (e.add_rule rule).rules := by
  haveI : IsTotal (FeedbackRule α β) (fun a b => a.priority ≤ b.priority) :=
    ⟨fun a b => le_total _ _⟩
  haveI : IsTrans (FeedbackRule α β) (fun a b => a.priority ≤ b.priority) :=
    ⟨fun _ _ _ h1 h2 => le_trans h1 h2⟩
  exact List.sorted_insertionSort _ _

/-- An engine populated through add_rule keeps its rules sorted by priority. -/
theorem build_sorted (rules : List (FeedbackRule α β)) :
    List.Sorted (fun a b : FeedbackRule α β => a.priority ≤ b.priority)
      (FeedbackEngine.build rules).rules := by
  induction rules using List.reverseRecOn with
  | nil => exact List.sorted_nil
  | append_singleton l r ih =>
    rw [FeedbackEngine.build, List.foldl_append]
    exact add_rule_sorted _ r

/-- Claim C8: for every rule list and frame input, evaluate never propagates
an exception raised by a rule's condition — a raising rule is treated as not
triggered and the remaining rules still run — and the result is the list of
messages of the triggered rules, ordered by ascending priority (the rules of
an engine populated through add_rule are priority-sorted, and evaluate
filters that sorted list in order). -/
theorem claimC8 (rules : List (FeedbackRule α β)) (landmarks : α) (context : β) :
    List.Sorted (fun a b : FeedbackRule α β => a.priority ≤ b.priority)
      (FeedbackEngine.build rules).rules
    ∧ (FeedbackEngine.build rules).evaluate landmarks context
        = (((FeedbackEngine.build rules).rules.filter
            (ruleTriggered landmarks context)).map FeedbackRule.message)
    ∧ ∀ (pre post : List (FeedbackRule α β)) (r : FeedbackRule α β) (msg : String),
        r.condition_fn landmarks context = Except.error msg →
        FeedbackEngine.evaluate { rules := pre ++ r :: post } landmarks context
          = FeedbackEngine.evaluate { rules := pre ++ post } landmarks context := by
  refine ⟨build_sorted rules, evaluate_eq_filter _ landmarks context, ?_⟩
  intro pre post r msg h
  rw [evaluate_eq_filter, evaluate_eq_filter]
  simp only [List.filter_append, List.filter_cons]
  have ht : ruleTriggered landmarks context r = false := by
    rw [ruleTriggered, h]
  rw [ht]
  simp

/-- Witness for C8: an engine whose first rule raises still evaluates the
rest — dropping the raising rule gives the same output. -/
theorem claimC8_witness :
    FeedbackEngine.evaluate { rules := [ruleBad, ruleOk] } () ()
      = FeedbackEngine.evaluate { rules := [ruleOk] } () () :=
  (claimC8 ([] : List (FeedbackRule Unit Unit)) () ()).2.2 [] [ruleOk] ruleBad "boom" rfl
